import Mathlib

/-!
Verification development for the IEEE bibliography style module
(src/style/ieee/mod.rs).  The data model and the formatting routines are
embedded shallowly: records become an inductive tree, rich text becomes a
plain string (no claim observes formatting spans), and Rust code that can
panic (an Option unwrap) becomes an Option-returning Lean function.
-/

namespace Hayagriva

/-- Closed taxonomy of record kinds (crate::types::EntryType), restricted to
the variants this module mentions. -/
inductive EntryType where
  | Article | Book | Chapter | Scene | Anthology | Anthos | Proceedings
  | Conference | Periodical | Reference | Repository | Report | Thesis
  | Manuscript | Patent | Legislation | Video | Web | Blog | Misc | Entry
deriving DecidableEq, Repr

/-- Roles of affiliated persons used by this module (crate::types::PersonRole). -/
inductive PersonRole where
  | Director | Writer | ExecutiveProducer
deriving DecidableEq, Repr

/-- A number-or-free-text field (crate::types::NumOrStr). -/
inductive NumOrStr where
  | Number (n : Int)
  | Str (s : String)
deriving DecidableEq, Repr

/-- Display rendering of NumOrStr (its Display impl). -/
def NumOrStr.show : NumOrStr → String
  | .Number n => toString n
  | .Str s => s

/-- A date: year plus optional zero-indexed month and zero-indexed day.
The month is stored as an index into the twelve months. -/
structure Date where
  year : Int
  month : Option (Fin 12)
  day : Option Nat
deriving DecidableEq, Repr

/-- A URL with its host component and an optional visit date
(url.value.host_str() is embedded as the host field). -/
structure QualifiedUrl where
  value : String
  host : Option String
  visit_date : Option Date
deriving DecidableEq, Repr

/-- The scalar fields of a record.  Persons are embedded by their display
name (the only attribute the module reads from them). -/
structure EntryData where
  entry_type : EntryType
  title : Option String
  authors : Option (List String)
  editors : Option (List String)
  affiliated : List (String × PersonRole)
  date : Option Date
  serial_number : Option String
  volume : Option (Int × Int)
  issue : Option NumOrStr
  edition : Option NumOrStr
  page_range : Option (Int × Int)
  location : Option String
  publisher : Option String
  organization : Option String
  language : Option String
  archive : Option String
  doi : Option String
  note : Option String
  url : Option QualifiedUrl
deriving DecidableEq, Repr

/-- A bibliographic record: its own fields plus its ordered parents. -/
inductive Entry where
  | mk (data : EntryData) (parents : List Entry)

mutual

/-- Structural equality of records (the derived PartialEq of Entry). -/
def Entry.decEq : (a b : Entry) → Decidable (a = b)
  | .mk d ps, .mk d' ps' =>
    if hd : d = d' then
      match Entry.decEqList ps ps' with
      | isTrue hp => isTrue (by rw [hd, hp])
      | isFalse hp => isFalse fun h => hp (by cases h; rfl)
    else isFalse fun h => hd (by cases h; rfl)

def Entry.decEqList : (a b : List Entry) → Decidable (a = b)
  | [], [] => isTrue rfl
  | [], _ :: _ => isFalse fun h => by cases h
  | _ :: _, [] => isFalse fun h => by cases h
  | a :: as, b :: bs =>
    match Entry.decEq a b with
    | isTrue h1 =>
      match Entry.decEqList as bs with
      | isTrue h2 => isTrue (by rw [h1, h2])
      | isFalse h2 => isFalse fun h => h2 (by cases h; rfl)
    | isFalse h1 => isFalse fun h => h1 (by cases h; rfl)

end

instance : DecidableEq Entry := Entry.decEq

def Entry.data : Entry → EntryData
  | .mk d _ => d

def Entry.parents : Entry → List Entry
  | .mk _ ps => ps

def Entry.entry_type (e : Entry) : EntryType := e.data.entry_type

def Entry.title (e : Entry) : Option String := e.data.title

def Entry.authors_fallible (e : Entry) : Option (List String) := e.data.authors

def Entry.authors (e : Entry) : List String := e.data.authors.getD []

def Entry.editors (e : Entry) : Option (List String) := e.data.editors

def Entry.affiliated_filtered (e : Entry) (role : PersonRole) : List String :=
  (e.data.affiliated.filter (fun p => p.2 = role)).map (fun p => p.1)

def Entry.date (e : Entry) : Option Date := e.data.date

def Entry.serial_number (e : Entry) : Option String := e.data.serial_number

def Entry.volume (e : Entry) : Option (Int × Int) := e.data.volume

def Entry.issue (e : Entry) : Option NumOrStr := e.data.issue

def Entry.edition (e : Entry) : Option NumOrStr := e.data.edition

def Entry.page_range (e : Entry) : Option (Int × Int) := e.data.page_range

def Entry.location (e : Entry) : Option String := e.data.location

def Entry.publisher (e : Entry) : Option String := e.data.publisher

def Entry.organization (e : Entry) : Option String := e.data.organization

def Entry.language (e : Entry) : Option String := e.data.language

def Entry.archive (e : Entry) : Option String := e.data.archive

def Entry.doi (e : Entry) : Option String := e.data.doi

def Entry.note (e : Entry) : Option String := e.data.note

def Entry.url (e : Entry) : Option QualifiedUrl := e.data.url

mutual

/-- Date of the record or, recursively, of the first ancestor that has one
(Entry::any_date). -/
def Entry.any_date : Entry → Option Date
  | .mk d ps => d.date.orElse (fun _ => anyDateList ps)

def anyDateList : List Entry → Option Date
  | [] => none
  | e :: es => (Entry.any_date e).orElse (fun _ => anyDateList es)

end

mutual

/-- URL of the record or, recursively, of the first ancestor that has one
(Entry::any_url). -/
def Entry.any_url : Entry → Option QualifiedUrl
  | .mk d ps => d.url.orElse (fun _ => anyUrlList ps)

def anyUrlList : List Entry → Option QualifiedUrl
  | [] => none
  | e :: es => (Entry.any_url e).orElse (fun _ => anyUrlList es)

end

/-- Selector section = select!((Chapter | Scene | Web) > ("p":*)) applied to
an entry: binds p to the first parent (the wildcard matches every parent). -/
def select_section (e : Entry) : Option Entry :=
  if e.entry_type = EntryType.Chapter ∨ e.entry_type = EntryType.Scene ∨
      e.entry_type = EntryType.Web then
    e.parents.head?
  else none

/-- Selector anthology = select!(Anthos > ("p": Anthology)): binds p to the
first Anthology parent. -/
def select_anthology (e : Entry) : Option Entry :=
  if e.entry_type = EntryType.Anthos then
    e.parents.find? (fun p => decide (p.entry_type = EntryType.Anthology))
  else none

/-- Selector entry_spec = select!(Entry > ("p":(Reference | Repository))). -/
def select_entry_spec (e : Entry) : Option Entry :=
  if e.entry_type = EntryType.Entry then
    e.parents.find? (fun p =>
      decide (p.entry_type = EntryType.Reference ∨
        p.entry_type = EntryType.Repository))
  else none

/-- Selector proceedings = select!(* > ("p":(Conference | Proceedings))). -/
def select_proceedings (e : Entry) : Option Entry :=
  e.parents.find? (fun p =>
    decide (p.entry_type = EntryType.Conference ∨
      p.entry_type = EntryType.Proceedings))

/-- Canonical parent resolution (get_canonical_parent): the four selectors
tried in order, each returning its "p" binding. -/
def get_canonical_parent (e : Entry) : Option Entry :=
  (select_section e).orElse fun _ =>
    (select_anthology e).orElse fun _ =>
      (select_entry_spec e).orElse fun _ =>
        select_proceedings e

/-- Matcher for select!((Video["issue", "volume"]) > Video): the entry is a
Video carrying issue and volume fields with some parent of kind Video. -/
def tv_series_matches (e : Entry) : Bool :=
  decide (e.entry_type = EntryType.Video) && e.issue.isSome && e.volume.isSome &&
    e.parents.any (fun p => decide (p.entry_type = EntryType.Video))

/-- Selector select!(Anthology > ("p":(Anthology["title"]))) used for the
series parentheses in the title clause. -/
def select_anthology_parent (e : Entry) : Option Entry :=
  if e.entry_type = EntryType.Anthology then
    e.parents.find? (fun p =>
      decide (p.entry_type = EntryType.Anthology) && p.title.isSome)
  else none

/-- Selector select!(Proceedings > ("p":(Proceedings | Anthology | Misc)))
used for the conference series suffix in the title clause. -/
def select_proceedings_parent (e : Entry) : Option Entry :=
  if e.entry_type = EntryType.Proceedings then
    e.parents.find? (fun p =>
      decide (p.entry_type = EntryType.Proceedings ∨
        p.entry_type = EntryType.Anthology ∨ p.entry_type = EntryType.Misc))
  else none

/-- Selector select!((Article | Book | Anthos) > ("p": Repository)) deciding
the preprint addons case. -/
def select_preprint (e : Entry) : Option Entry :=
  if e.entry_type = EntryType.Article ∨ e.entry_type = EntryType.Book ∨
      e.entry_type = EntryType.Anthos then
    e.parents.find? (fun p => decide (p.entry_type = EntryType.Repository))
  else none

/-- Selector select!(* > ("p":(Blog | Web))) deciding the web-parented
addons case. -/
def select_web_parented (e : Entry) : Option Entry :=
  e.parents.find? (fun p =>
    decide (p.entry_type = EntryType.Blog ∨ p.entry_type = EntryType.Web))

/-- The while loop of format (lines 796-806): walk untitled Chapter/Scene
records to their primary parent, pushing each visited serial number, and
stop at a titled or differently-kinded record or when parents run out.
Returns the final record together with the collected stack. -/
def sn_walk : Entry → Entry × List String
  | .mk d ps =>
    if d.title.isNone ∧ (d.entry_type = EntryType.Chapter ∨
        d.entry_type = EntryType.Scene) then
      let st := match d.serial_number with
        | some sn => [sn]
        | none => []
      match ps with
      | [] => (.mk d ps, st)
      | p :: _ =>
        let r := sn_walk p
        (r.1, st ++ r.2)
    else (.mk d ps, [])

/-- Record reached by the chapter/scene walk. -/
def walked (e : Entry) : Entry := (sn_walk e).1

/-- Serial-number stack after the walk, including the second push performed
when the terminal record has kind Chapter (lines 808-812). -/
def sn_stack_of (e : Entry) : List String :=
  let r := sn_walk e
  if r.1.entry_type = EntryType.Chapter then
    r.2 ++ (match r.1.serial_number with
      | some sn => [sn]
      | none => [])
  else r.2

/-- True for the ten ASCII digits. -/
def is_digit_char (c : Char) : Bool := 48 ≤ c.toNat && c.toNat ≤ 57

/-- Modelled from the spec: integer parsing of serial numbers (Rust
str::parse::<u32>, external standard library); non-empty digits-only
strings whose value fits in 32 bits parse, everything else is discarded. -/
def parse_u32 (s : String) : Option Nat :=
  if s.data ≠ [] ∧ s.data.all is_digit_char then
    let v := s.data.foldl (fun n c => n * 10 + (c.toNat - 48)) 0
    if v < 4294967296 then some v else none
  else none

/-- Successfully parsed serial numbers of the walk (lines 814-819). -/
def secs_of (e : Entry) : List Nat :=
  (sn_stack_of e).filterMap parse_u32

/-- First parsed serial number, rendered later as the "ch. N" addon. -/
def chapter_of (e : Entry) : Option Nat := (secs_of e).head?

/-- Last parsed serial number when more than one exists, rendered later as
the "sec. N" addon. -/
def section_of (e : Entry) : Option Nat :=
  if (secs_of e).length > 1 then (secs_of e).getLast? else none

/-- Modelled from the spec: the English month-abbreviation table consulted by
en::get_month_abbr(month, true) (crate::lang::en, outside src/).  The spec
fixes "Jan." for month index 0 and "Mar." for month index 2; the remaining
entries follow the same period-suffixed abbreviation scheme.  The month is a
zero-based index into the twelve months, so the lookup is total. -/
def get_month_abbr (m : Fin 12) : String :=
  match m with
  | 0 => "Jan."
  | 1 => "Feb."
  | 2 => "Mar."
  | 3 => "Apr."
  | 4 => "May"
  | 5 => "Jun."
  | 6 => "Jul."
  | 7 => "Aug."
  | 8 => "Sep."
  | 9 => "Oct."
  | 10 => "Nov."
  | 11 => "Dec."

/-- Modelled from the spec: English ordinal rendering en::get_ordinal
(crate::lang::en, outside src/); the spec shows "2nd", "3rd". -/
def get_ordinal (n : Int) : String :=
  let a := n.natAbs
  let suffix :=
    if a % 100 = 11 ∨ a % 100 = 12 ∨ a % 100 = 13 then "th"
    else if a % 10 = 1 then "st"
    else if a % 10 = 2 then "nd"
    else if a % 10 = 3 then "rd"
    else "th"
  toString n ++ suffix

/-- Left-pad a numeral with zeros to width four. -/
def pad4 (n : Nat) : String :=
  if n < 10 then "000" ++ toString n
  else if n < 100 then "00" ++ toString n
  else if n < 1000 then "0" ++ toString n
  else toString n

/-- Modelled from the spec: Date::display_year (crate::types, outside src/);
common-era years are shown zero-padded to four digits ("2020"), anything
else falls back to the plain numeral. -/
def display_year_int (y : Int) : String :=
  if 0 ≤ y ∧ y < 10000 then pad4 y.toNat else toString y

def Date.display_year (d : Date) : String := display_year_int d.year

/-- Modelled from the spec: ISO 639-1 code to language name resolution
(the external isolang crate's Language::from_639_1 composed with to_name).
Only a fragment of the assignment table is carried; the essential point is
that the lookup is partial: unassigned codes, such as "zz", resolve to
none, which is where the source's .unwrap() panics. -/
def language_from_639_1 (code : String) : Option String :=
  if code = "en" then some "English"
  else if code = "de" then some "German"
  else if code = "fr" then some "French"
  else if code = "es" then some "Spanish"
  else if code = "it" then some "Italian"
  else if code = "ja" then some "Japanese"
  else none

/-- Modelled from the spec: the journal-abbreviation lookup
(mod abbreviations, outside src/); it is an external data table and titles
without a table entry are returned unchanged, so the table itself is
embedded as empty. -/
def abbreviate_journal (s : String) : String := s

/-- Modelled from the spec: format_range from the shared style helpers
(outside src/); a collapsed range uses the singular prefix, a proper range
the plural prefix with its endpoints joined by a dash, as in "vol. 3" and
"pp. 10-15". -/
def format_range (sing plur : String) (r : Int × Int) : String :=
  if r.1 = r.2 then sing ++ " " ++ toString r.1
  else plur ++ " " ++ toString r.1 ++ "-" ++ toString r.2

/-- Modelled from the spec: name_list_straight from the shared style helpers
(outside src/) maps persons to their display names; persons are embedded by
display name already, so the map is the identity. -/
def name_list_straight (ps : List String) : List String := ps

/-- True when the string ends in the four bytes of the quoted-comma sequence
with at least one byte before them; this is the byte-level check of lines
884-886, where the comma is one byte and the closing curly quote three, so
the char-boundary guard and four-byte suffix comparison amount to a
two-character suffix test. -/
def ends_with_comma_quote (s : String) : Bool :=
  decide (4 < s.utf8ByteSize) && List.isSuffixOf (String.data ",”") s.data

/-- Drop the two-character quoted-comma suffix and close with a plain quote
(lines 889-890). -/
def drop_comma_quote (s : String) : String :=
  String.mk (s.data.dropLast.dropLast ++ String.data "”")

/-- Modelled from the spec: push_comma_quote_aware from the shared style
helpers (outside src/), called with a period: normalize the trailing
punctuation to a single period, turning a quoted comma into a quoted period
and otherwise appending a period unless one ends the string already. -/
def push_comma_quote_aware (s : String) : String :=
  if ends_with_comma_quote s then
    String.mk (s.data.dropLast.dropLast ++ String.data ".”")
  else if s ≠ "" ∧ s.back = ',' then String.mk (s.data.dropLast ++ ['.'])
  else if s ≠ "" ∧ s.back ≠ '.' then s.push '.'
  else s

/-- The IEEE style generator: the two casing policies are external
transformations stored as configuration, the et-al threshold is optional. -/
structure Ieee where
  sentence_case : String → String
  title_case : String → String
  et_al_threshold : Option Nat

/-- Modelled from the spec: the default sentence-casing transformation
(crate::lang, outside src/); the spec leaves its letter-level rules to an
external collaborator, so it is embedded as the identity on titles. -/
def default_sentence_case (s : String) : String := s

/-- Modelled from the spec: the default title-casing transformation
(crate::lang, outside src/); embedded as the identity on titles for the
same reason as the sentence case. -/
def default_title_case (s : String) : String := s

/-- Ieee::new with the default et-al threshold of six. -/
def Ieee.new : Ieee :=
  { sentence_case := default_sentence_case
    title_case := default_title_case
    et_al_threshold := some 6 }

/-- Loop body of and_list (lines 58-71): emit each name with its separators
until the truncation break fires. -/
def and_list_loop (threshold n : Nat) : List String → Nat → String → String
  | [], _, res => res
  | name :: rest, i, res =>
    if threshold > 0 ∧ i > 1 ∧ n ≥ threshold then res
    else
      let res := res ++ name
      let res := if (i : Int) ≤ (n : Int) - 2 then res ++ ", " else res
      let res := if (i : Int) = (n : Int) - 2 then res ++ "and " else res
      and_list_loop threshold n rest (i + 1) res

/-- Ieee::and_list (lines 53-78). -/
def Ieee.and_list (style : Ieee) (names : List String) : String :=
  let n := names.length
  let threshold := style.et_al_threshold.getD 0
  let res := and_list_loop threshold n names 0 ""
  if threshold > 0 ∧ n ≥ threshold then res ++ "et al." else res

/-- Ieee::show_url (lines 80-82). -/
def Ieee.show_url (_style : Ieee) (e : Entry) : Bool := e.any_url.isSome

/-- The contributor role chosen by get_author's Video analysis. -/
inductive AuthorRole where
  | Normal | Director | ExecutiveProducer
deriving DecidableEq, Repr

/-- The Video case analysis of get_author (lines 98-136): the chosen name
list, when any, together with the role label to append. -/
def author_names_role (entry : Entry) : Option (List String) × AuthorRole :=
  if entry.entry_type = EntryType.Video then
    if tv_series_matches entry then
      let dirs := entry.affiliated_filtered PersonRole.Director
      let dir_list := (name_list_straight dirs).map (fun s => s ++ " (Director)")
      let writers := entry.affiliated_filtered PersonRole.Writer
      let writer_list :=
        (name_list_straight writers).map (fun s => s ++ " (Writer)")
      if dirs ≠ [] then (some (dir_list ++ writer_list), AuthorRole.Normal)
      else (none, AuthorRole.Normal)
    else
      let dirs := entry.affiliated_filtered PersonRole.Director
      if dirs ≠ [] then (some (name_list_straight dirs), AuthorRole.Director)
      else
        let prods := entry.affiliated_filtered PersonRole.ExecutiveProducer
        if prods ≠ [] then
          (some (name_list_straight prods), AuthorRole.ExecutiveProducer)
        else (none, AuthorRole.Normal)
  else (none, AuthorRole.Normal)

/-- Ieee::get_author (lines 84-171). -/
def Ieee.get_author (style : Ieee) (entry canonical : Entry) : String :=
  let nr := author_names_role entry
  let authors := nr.1.orElse fun _ =>
    ((entry.authors_fallible.orElse fun _ =>
      canonical.authors_fallible).map name_list_straight)
  match authors with
  | some authors =>
    let count := authors.length
    let amps := style.and_list authors
    match nr.2 with
    | AuthorRole.Normal => amps
    | AuthorRole.ExecutiveProducer =>
      if count = 1 then amps ++ ", Executive Prod"
      else amps ++ ", Executive Prods"
    | AuthorRole.Director =>
      if count = 1 then amps ++ ", Director" else amps ++ ", Directors"
  | none =>
    match entry.editors with
    | some eds =>
      if eds ≠ [] then
        style.and_list (name_list_straight eds) ++ ", " ++
          (if eds.length = 1 then "Ed." else "Eds.")
      else ""
    | none => ""

/-- Language prefix of the title clause (lines 210-217): "(in Name) ",
failing when the code does not resolve (the source unwraps and panics). -/
def title_lang_part (entry canonical : Entry) : Option String :=
  match entry.language.orElse fun _ => canonical.language with
  | some l => (language_from_639_1 l).map (fun nm => "(in " ++ nm ++ ") ")
  | none => some ""

/-- Series parentheses of the title clause (lines 227-241): when the
canonical record is an Anthology inside a titled Anthology, append that
title, with its issue, in parentheses.  The unwrap of the parent title is
guarded by the selector's title attribute, hence the Option bind. -/
def anth_parenthetical (style : Ieee) (canonical : Entry) : Option String :=
  match select_anthology_parent canonical with
  | some panth =>
    (panth.title.map style.title_case).map (fun pt =>
      " (" ++ pt ++
        (match panth.issue with
          | some i => ", no. " ++ i.show
          | none => "") ++ ")")
  | none => some ""

/-- Conference series suffix of the title clause (lines 243-254). -/
def conf_series (style : Ieee) (canonical : Entry) : String :=
  match select_proceedings_parent canonical with
  | some pconf =>
    match pconf.title.map style.title_case with
    | some pt => " in " ++ pt
    | none => ""
  | none => ""

/-- Ieee::get_title_element (lines 173-292), with panics embedded as none. -/
def Ieee.get_title_element (style : Ieee) (entry canonical : Entry) :
    Option String :=
  if entry ≠ canonical then
    let entry_title := entry.title.map style.sentence_case
    let canon_title := canonical.title.map style.title_case
    let first := match entry_title with
      | some et =>
        (if canonical.entry_type = EntryType.Conference then et ++ "."
          else "“" ++ et ++ ",”") ++
          (if canon_title.isSome then " " else "")
      | none => ""
    match canon_title with
    | none => some first
    | some ct0 =>
      let ct := abbreviate_journal ct0
      if canonical.entry_type = EntryType.Conference then
        some (first ++ "Presented at " ++ ct)
      else
        (title_lang_part entry canonical).bind fun lp =>
          (anth_parenthetical style canonical).map fun ap =>
            first ++ lp ++
              (if entry.entry_type ≠ EntryType.Article ∨
                  canonical.entry_type ≠ EntryType.Periodical then "in "
                else "") ++
              ct ++ ap ++ conf_series style canonical
  else if entry.entry_type = EntryType.Legislation ∨
      entry.entry_type = EntryType.Repository ∨
      entry.entry_type = EntryType.Video ∨
      entry.entry_type = EntryType.Reference ∨
      entry.entry_type = EntryType.Book ∨
      entry.entry_type = EntryType.Proceedings ∨
      entry.entry_type = EntryType.Anthology then
    let res := if entry.entry_type = EntryType.Legislation then
        (match entry.serial_number with
          | some sn => sn
          | none => "")
      else ""
    some (match entry.title.map style.title_case with
      | some t => (if res ≠ "" then res ++ ", " else res) ++ t
      | none => res)
  else
    some (match entry.title.map style.sentence_case with
      | some t => "“" ++ t ++ ",”"
      | none => "")

/-- Ieee::formt_date (lines 776-789): display adds one to the stored
zero-based day index. -/
def formt_date (d : Date) : String :=
  let res := ""
  let res := match d.month with
    | some m =>
      res ++
        (match d.day with
          | some day => get_month_abbr m ++ " " ++ toString (day + 1) ++ ","
          | none => get_month_abbr m) ++ " "
    | none => res
  res ++ d.display_year

/-- True when the needle occurs contiguously in the haystack; embeds Rust's
str::contains used on lowercased serial numbers. -/
def contains_chars (needle : List Char) : List Char → Bool
  | [] => needle.isPrefixOf ([] : List Char)
  | c :: rest => needle.isPrefixOf (c :: rest) || contains_chars needle rest

/-- Substring test on strings (Rust str::contains). -/
def str_contains (hay needle : String) : Bool :=
  contains_chars needle.data hay.data

/-- Month fragment followed by the year fragment pushed for a present date
(the pattern of lines 340-353 and its copies): "Mon D" has no comma here
and the day is again the stored index plus one. -/
def month_day_frags (d : Date) : List String :=
  (match d.month with
    | some m =>
      [match d.day with
        | some day => get_month_abbr m ++ " " ++ toString (day + 1)
        | none => get_month_abbr m]
    | none => []) ++ [d.display_year]

/-- Single-string date "Mon D, Year" built by the Reference and Report
branches (lines 373-390 and 575-592). -/
def month_day_year_str (d : Date) : String :=
  (match d.month with
    | some m =>
      match d.day with
      | some day => get_month_abbr m ++ " " ++ toString (day + 1) ++ ", "
      | none => get_month_abbr m ++ " "
    | none => "") ++ d.display_year

/-- Parenthesized date prefix of the Patent-with-URL fragment
(lines 477-493). -/
def patent_url_date (d : Date) : String :=
  "(" ++ d.display_year ++
    (match d.month with
      | some m =>
        ", " ++
          (match d.day with
            | some day => get_month_abbr m ++ " " ++ toString (day + 1)
            | none => get_month_abbr m)
      | none => "") ++ "). "

/-- Edition fragment (lines 323-332 and its copies): an ordinal for numeric
editions above one, free text verbatim. -/
def edition_frag (canonical : Entry) : List String :=
  match canonical.edition with
  | some (NumOrStr.Number i) => if i > 1 then [get_ordinal i ++ " ed."] else []
  | some (NumOrStr.Str s) => [s]
  | none => []

/-- Editors and-list fragment with its Ed./Eds. suffix (lines 309-317 and
704-715). -/
def editors_frag (style : Ieee) (eds : List String) : String :=
  style.and_list (name_list_straight eds) ++
    (if eds.length > 1 then ", Eds." else ", Ed.")

/-- Language suffix " (in Name)" appended to a publisher fragment
(lines 445-452 and 743-750); fails where the source unwrap panics. -/
def in_lang_suffix (entry canonical : Entry) : Option String :=
  match entry.language.orElse fun _ => canonical.language with
  | some l => (language_from_639_1 l).map (fun nm => " (in " ++ nm ++ ")")
  | none => some ""

/-- Publisher fragment with optional location prefix and language suffix
(lines 434-455 and 732-753, which are textually identical in the source). -/
def publisher_block (entry canonical : Entry) : Option (List String) :=
  match canonical.publisher.orElse fun _ => canonical.organization with
  | some publisher =>
    (in_lang_suffix entry canonical).map (fun ls =>
      [(match canonical.location with
          | some loc => loc ++ ": "
          | none => "") ++ publisher ++ ls])
  | none => some []

/-- Serial-number fragment of the preprint case (lines 640-666), with the
arXiv prefix and archive suffix. -/
def preprint_serial (entry parent : Entry) : List String :=
  match entry.serial_number with
  | some sn =>
    let sn1 := match entry.any_url with
      | some url =>
        if ¬ str_contains sn.toLower "arxiv" ∧
            ((url.host.getD "").toLower = "arxiv.org" ∨
              ((parent.title.map String.toLower).getD "") = "arxiv") then
          "arXiv: " ++ sn
        else sn
      | none => sn
    [sn1 ++
      (match entry.archive.orElse fun _ => parent.archive with
        | some al => " [" ++ al ++ "]"
        | none => "")]
  | none => []

/-- Conference/Proceedings arm of get_addons (lines 307-370). -/
def addons_conf_proc (style : Ieee) (entry canonical : Entry) : List String :=
  (if canonical.entry_type = EntryType.Proceedings then
    (match canonical.editors with
      | some eds => [editors_frag style eds]
      | none => []) ++
    (match entry.volume.orElse fun _ => canonical.volume with
      | some v => [format_range "vol." "vols." v]
      | none => []) ++
    edition_frag canonical
  else []) ++
  (match canonical.location with
    | some l => [l]
    | none => []) ++
  (if canonical.entry_type ≠ EntryType.Conference ∨
      ¬ style.show_url entry then
    match entry.any_date with
    | some d => month_day_frags d
    | none => []
  else []) ++
  (if canonical.entry_type = EntryType.Conference then
    match entry.serial_number with
    | some sn => ["Paper " ++ sn]
    | none => []
  else
    (match entry.page_range with
      | some p => [format_range "p." "pp." p]
      | none => []) ++
    (match entry.doi with
      | some doi => ["doi: " ++ doi]
      | none => []))

/-- Reference arm of get_addons (lines 371-426). -/
def addons_reference (style : Ieee) (entry canonical : Entry) : List String :=
  edition_frag canonical ++
  (if ¬ style.show_url entry then
    (match canonical.organization.orElse fun _ => canonical.publisher with
      | some publisher =>
        [publisher] ++
          (match canonical.location with
            | some l => [l]
            | none => [])
      | none => []) ++
    (match entry.any_date with
      | some d => [month_day_year_str d]
      | none => []) ++
    (match entry.page_range with
      | some p => [format_range "p." "pp." p]
      | none => [])
  else
    match entry.any_date with
    | some d => ["(" ++ month_day_year_str d ++ ")"]
    | none => [])

/-- Repository arm of get_addons (lines 427-456). -/
def addons_repository (entry canonical : Entry) : Option (List String) :=
  (publisher_block entry canonical).map (fun pubs =>
    (match canonical.serial_number with
      | some sn => ["(version " ++ sn ++ ")"]
      | none =>
        match canonical.date.orElse fun _ => entry.any_date with
        | some d => ["(" ++ toString d.year ++ ")"]
        | none => []) ++ pubs)

/-- Video arm of get_addons (lines 457-461). -/
def addons_video (entry canonical : Entry) : List String :=
  match canonical.date.orElse fun _ => entry.any_date with
  | some d => ["(" ++ toString d.year ++ ")"]
  | none => []

/-- Patent arm of get_addons (lines 462-517). -/
def addons_patent (style : Ieee) (entry canonical : Entry) : List String :=
  let start :=
    (match canonical.location with
      | some l => l ++ " "
      | none => "") ++ "Patent" ++
    (match canonical.serial_number with
      | some sn => " " ++ sn
      | none => "")
  if style.show_url entry then
    [(match entry.any_date with
      | some d => patent_url_date d
      | none => "") ++ start]
  else
    [start] ++
      (match entry.any_date with
        | some d => month_day_frags d
        | none => [])

/-- Periodical arm of get_addons (lines 518-559): the serial-number
fragment is pushed after the date fragments, and only when the page range
is absent. -/
def addons_periodical (entry canonical : Entry) : List String :=
  (match canonical.volume with
    | some v => [format_range "vol." "vols." v]
    | none => []) ++
  (match canonical.issue with
    | some i => ["no. " ++ i.show]
    | none => []) ++
  (match entry.page_range with
    | some p => [format_range "p." "pp." p]
    | none => []) ++
  (match entry.any_date with
    | some d => month_day_frags d
    | none => []) ++
  (match entry.page_range with
    | none =>
      match entry.serial_number with
      | some sn => ["Art. no. " ++ sn]
      | none => []
    | some _ => []) ++
  (match entry.doi with
    | some doi => ["doi: " ++ doi]
    | none => [])

/-- Report arm of get_addons (lines 560-615). -/
def addons_report (style : Ieee) (entry canonical : Entry) : List String :=
  (match canonical.organization.orElse fun _ => canonical.publisher with
    | some publisher =>
      [publisher] ++
        (match canonical.location with
          | some l => [l]
          | none => [])
    | none => []) ++
  (match canonical.serial_number with
    | some sn => ["Rep. " ++ sn]
    | none => []) ++
  (if ¬ style.show_url entry then
    match entry.any_date with
    | some d => [month_day_year_str d]
    | none => []
  else []) ++
  (match canonical.volume.orElse fun _ => entry.volume with
    | some v => [format_range "vol." "vols." v]
    | none => []) ++
  (match canonical.issue with
    | some i => ["no. " ++ i.show]
    | none => []) ++
  (if style.show_url entry then
    match entry.any_date with
    | some d => [month_day_year_str d]
    | none => []
  else [])

/-- Thesis arm of get_addons (lines 616-633). -/
def addons_thesis (entry canonical : Entry) : List String :=
  ["Thesis"] ++
  (match canonical.organization with
    | some org =>
      [abbreviate_journal org] ++
        (match canonical.location with
          | some l => [l]
          | none => [])
    | none => []) ++
  (match entry.serial_number with
    | some sn => [sn]
    | none => []) ++
  (match entry.any_date with
    | some d => [d.display_year]
    | none => [])

/-- Preprint arm of get_addons (lines 638-683). -/
def addons_preprint (entry parent : Entry) : List String :=
  preprint_serial entry parent ++
    (match entry.any_date with
      | some d => month_day_frags d
      | none => [])

/-- Web/Blog source arm of get_addons (lines 684-690). -/
def addons_web (entry : Entry) : List String :=
  match entry.publisher.orElse fun _ => entry.organization with
  | some p => [p]
  | none => []

/-- Web-parented arm of get_addons (lines 691-702). -/
def addons_web_parented (entry parent : Entry) : List String :=
  match ((((parent.title.orElse fun _ =>
      parent.publisher).orElse fun _ =>
      entry.publisher).orElse fun _ =>
      parent.organization).orElse fun _ => entry.organization) with
  | some p => [p]
  | none => []

/-- Fallback arm of get_addons (lines 703-770). -/
def addons_fallback (style : Ieee) (entry canonical : Entry)
    (chapter sect : Option Nat) : Option (List String) :=
  (publisher_block entry canonical).map (fun pubs =>
    (match entry.authors.head?,
        entry.editors.orElse fun _ => canonical.editors with
      | some _, some eds => [editors_frag style eds]
      | _, _ => []) ++
    (match entry.volume.orElse fun _ => canonical.volume with
      | some v => [format_range "vol." "vols." v]
      | none => []) ++
    edition_frag canonical ++
    pubs ++
    (match canonical.any_date with
      | some d => [d.display_year]
      | none => []) ++
    (match chapter with
      | some c => ["ch. " ++ toString c]
      | none => []) ++
    (match sect with
      | some s => ["sec. " ++ toString s]
      | none => []) ++
    (match entry.page_range with
      | some p => [format_range "p." "pp." p]
      | none => []))

/-- Ieee::get_addons (lines 294-774): the case analysis over the canonical
kind with source-kind sub-cases, in the source's arm order; the two
branches that resolve a language return none where the source panics. -/
def Ieee.get_addons (style : Ieee) (entry canonical : Entry)
    (chapter sect : Option Nat) : Option (List String) :=
  if canonical.entry_type = EntryType.Conference ∨
      canonical.entry_type = EntryType.Proceedings then
    some (addons_conf_proc style entry canonical)
  else if canonical.entry_type = EntryType.Reference then
    some (addons_reference style entry canonical)
  else if canonical.entry_type = EntryType.Repository then
    addons_repository entry canonical
  else if canonical.entry_type = EntryType.Video then
    some (addons_video entry canonical)
  else if canonical.entry_type = EntryType.Patent then
    some (addons_patent style entry canonical)
  else if canonical.entry_type = EntryType.Periodical then
    some (addons_periodical entry canonical)
  else if canonical.entry_type = EntryType.Report then
    some (addons_report style entry canonical)
  else if canonical.entry_type = EntryType.Thesis then
    some (addons_thesis entry canonical)
  else if canonical.entry_type = EntryType.Legislation then some []
  else if canonical.entry_type = EntryType.Manuscript then some ["unpublished"]
  else
    match select_preprint entry with
    | some parent => some (addons_preprint entry parent)
    | none =>
      if entry.entry_type = EntryType.Web ∨
          entry.entry_type = EntryType.Blog then
        some (addons_web entry)
      else
        match select_web_parented entry with
        | some parent => some (addons_web_parented entry parent)
        | none => addons_fallback style entry canonical chapter sect

/-- Addons joined by ", " (the index loop of lines 898-904). -/
def join_addons : List String → String
  | [] => ""
  | [a] => a
  | a :: rest => a ++ ", " ++ join_addons rest

/-- Punctuation fix-up and addon insertion of format (lines 883-904):
when the assembled string ends in the quoted-comma sequence, an empty addon
list drops the comma and keeps the quote, while a non-empty addon list
keeps the comma-quote ending and continues after a single space; otherwise
a non-empty addon list is preceded by ", ". -/
def stitch_addons (res : String) (addons : List String) : String :=
  let res :=
    if ends_with_comma_quote res then
      if addons.isEmpty then drop_comma_quote res else res ++ " "
    else if res ≠ "" ∧ ¬ addons.isEmpty then res ++ ", "
    else res
  res ++ join_addons addons

/-- Everything format does after the author, title and addons strings exist
(lines 837-949): session/location/date preambles, separator, title, addon
stitching, punctuation normalization, URL and note suffixes. -/
def format_tail (_style : Ieee) (entry canonical : Entry) (url : Bool)
    (authors title : String) (addons : List String) : String :=
  let res := authors
  let res :=
    if canonical.entry_type = EntryType.Legislation then
      match entry.edition with
      | some (NumOrStr.Str session) =>
        (if res ≠ "" then res ++ ". " else res) ++ session
      | _ => res
    else res
  let res :=
    if canonical.entry_type = EntryType.Video then
      match canonical.location with
      | some loc => (if res ≠ "" then res ++ ", " else res) ++ loc
      | none => res
    else if canonical.entry_type = EntryType.Legislation ∨
        ((canonical.entry_type = EntryType.Conference ∨
          canonical.entry_type = EntryType.Patent) ∧ url) then
      match entry.any_date with
      | some d =>
        (if res ≠ "" then res ++ ". " else res) ++ "(" ++ formt_date d ++ ")"
      | none => res
    else res
  let res :=
    if res ≠ "" ∧ title ≠ "" then
      res ++
        (if canonical.entry_type = EntryType.Legislation ∨
            canonical.entry_type = EntryType.Video ∨
            ((canonical.entry_type = EntryType.Conference ∨
              canonical.entry_type = EntryType.Patent) ∧ url) then ". "
          else ", ")
    else res
  let res := res ++ title
  let res := stitch_addons res addons
  let res := push_comma_quote_aware res
  let res :=
    if url then
      match entry.any_url with
      | some u =>
        let res := if res ≠ "" then res ++ " " else res
        if canonical.entry_type ≠ EntryType.Web ∧
            canonical.entry_type ≠ EntryType.Blog then
          res ++
            (match u.visit_date with
              | some d => "Accessed: " ++ formt_date d ++ ". "
              | none => "") ++
            (if canonical.entry_type = EntryType.Video then "[Online Video]"
              else "[Online]") ++
            ". Available: " ++ u.value
        else
          res ++ u.value ++
            (match u.visit_date with
              | some d => " (accessed: " ++ formt_date d ++ ")."
              | none => "")
      | none => res
    else res
  match entry.note with
  | some note => (if res ≠ "" then res ++ " " else res) ++ "(" ++ note ++ ")"
  | none => res

/-- The canonical record: the resolved canonical parent, the record itself
when resolution fails (lines 830-831). -/
def canonical_of (e : Entry) : Entry := (get_canonical_parent e).getD e

/-- BibliographyFormatter::format for Ieee (lines 793-950).  The preceding
record argument is accepted and ignored, as in the source (_prev).  The
result is none exactly where the source panics on language-name
resolution. -/
def Ieee.format (style : Ieee) (entry0 : Entry) (_prev : Option Entry) :
    Option String :=
  let entry := walked entry0
  let chapter := chapter_of entry0
  let sect := section_of entry0
  let url := entry.any_url.isSome
  let canonical := canonical_of entry
  match style.get_title_element entry canonical,
      style.get_addons entry canonical chapter sect with
  | some title, some addons =>
    some (format_tail style entry canonical url
      (style.get_author entry canonical) title addons)
  | _, _ => none

/-- True when the record's own language field, if present, resolves to a
language name; absent languages are fine. -/
def langOkB (e : Entry) : Bool :=
  match e.language with
  | some l => (language_from_639_1 l).isSome
  | none => true

/-- Record data with every optional field absent, for concrete inputs. -/
def baseData (t : EntryType) : EntryData :=
  { entry_type := t, title := none, authors := none, editors := none,
    affiliated := [], date := none, serial_number := none, volume := none,
    issue := none, edition := none, page_range := none, location := none,
    publisher := none, organization := none, language := none,
    archive := none, doi := none, note := none, url := none }

/-- A bare Conference record. -/
def conferenceE : Entry := .mk (baseData EntryType.Conference) []

/-- A Book whose parent chain leads to a Conference. -/
def bookUnderConf : Entry := .mk (baseData EntryType.Book) [conferenceE]

/-- A titled Chapter with a direct Book parent and a deeper Conference
ancestor. -/
def chapterOverConf : Entry :=
  .mk { baseData EntryType.Chapter with title := some "C" } [bookUnderConf]

/-- A Video series record carrying issue and volume fields. -/
def seriesVideo : Entry :=
  .mk { baseData EntryType.Video with
        issue := some (NumOrStr.Number 1), volume := some (1, 1) } []

/-- A Video without its own issue/volume, nested beneath a Video that has
both, with one director and one writer. -/
def filmShapedEpisode : Entry :=
  .mk { baseData EntryType.Video with
        affiliated := [("D", PersonRole.Director), ("W", PersonRole.Writer)] }
    [seriesVideo]

/-- A Video that itself carries issue and volume, nested beneath a Video,
with one director and one writer: the shape the source's TV-episode
selector accepts. -/
def episodeE : Entry :=
  .mk { baseData EntryType.Video with
        affiliated := [("D", PersonRole.Director), ("W", PersonRole.Writer)],
        issue := some (NumOrStr.Number 3), volume := some (1, 1) }
    [seriesVideo]

/-- A Periodical with a serial number, a month-bearing date and a DOI, but
no page range. -/
def periodicalE : Entry :=
  .mk { baseData EntryType.Periodical with
        serial_number := some "7",
        date := some { year := 2020, month := some 2, day := none },
        doi := some "x" } []

/-- A titled Book used as a canonical parent. -/
def titledBook : Entry :=
  .mk { baseData EntryType.Book with title := some "B" } []

/-- A titled Chapter declaring the unassigned language code "zz". -/
def invalidLangChapter : Entry :=
  .mk { baseData EntryType.Chapter with
        title := some "T", language := some "zz" } [titledBook]

/-- The same Chapter declaring the valid language code "en". -/
def validLangChapter : Entry :=
  .mk { baseData EntryType.Chapter with
        title := some "T", language := some "en" } [titledBook]

/-- An untitled Chapter with no parents and the numeric serial number 3. -/
def numberedChapter : Entry :=
  .mk { baseData EntryType.Chapter with serial_number := some "3" } []

theorem in_lang_suffix_isSome (e c : Entry) (h1 : langOkB e = true)
    (h2 : langOkB c = true) : (in_lang_suffix e c).isSome = true := by
  unfold in_lang_suffix
  unfold langOkB at h1 h2
  cases he : e.language with
  | some l =>
    simp [he] at h1
    simp [he, Option.orElse, h1]
  | none =>
    cases hc : c.language with
    | some l =>
      simp [hc] at h2
      simp [he, hc, Option.orElse, h2]
    | none => simp [he, hc, Option.orElse]

theorem title_lang_part_isSome (e c : Entry) (h1 : langOkB e = true)
    (h2 : langOkB c = true) : (title_lang_part e c).isSome = true := by
  unfold title_lang_part
  unfold langOkB at h1 h2
  cases he : e.language with
  | some l =>
    simp [he] at h1
    simp [he, Option.orElse, h1]
  | none =>
    cases hc : c.language with
    | some l =>
      simp [hc] at h2
      simp [he, hc, Option.orElse, h2]
    | none => simp [he, hc, Option.orElse]

theorem publisher_block_isSome (e c : Entry) (h1 : langOkB e = true)
    (h2 : langOkB c = true) : (publisher_block e c).isSome = true := by
  unfold publisher_block
  cases hp : c.publisher.orElse fun _ => c.organization with
  | none => simp
  | some publisher =>
    obtain ⟨ls, hls⟩ :=
      Option.isSome_iff_exists.mp (in_lang_suffix_isSome e c h1 h2)
    simp [hls]

theorem select_anthology_parent_title {c p : Entry}
    (h : select_anthology_parent c = some p) : p.title.isSome = true := by
  unfold select_anthology_parent at h
  split at h
  · have h2 := List.find?_some h
    simp at h2
    exact h2.2
  · cases h

theorem anth_parenthetical_isSome (style : Ieee) (c : Entry) :
    (anth_parenthetical style c).isSome = true := by
  unfold anth_parenthetical
  cases hs : select_anthology_parent c with
  | none => simp
  | some p =>
    obtain ⟨t, ht⟩ :=
      Option.isSome_iff_exists.mp (select_anthology_parent_title hs)
    simp [ht]

theorem get_title_element_isSome (style : Ieee) (e c : Entry)
    (h1 : langOkB e = true) (h2 : langOkB c = true) :
    (style.get_title_element e c).isSome = true := by
  unfold Ieee.get_title_element
  split
  · cases hct : c.title.map style.title_case with
    | none => simp [hct]
    | some ct0 =>
      split
      · simp [hct]
      · obtain ⟨lp, hlp⟩ :=
          Option.isSome_iff_exists.mp (title_lang_part_isSome e c h1 h2)
        obtain ⟨ap, hap⟩ :=
          Option.isSome_iff_exists.mp (anth_parenthetical_isSome style c)
        simp [hct, hlp, hap]
  · split
    · simp
    · simp

theorem addons_repository_isSome (e c : Entry) (h1 : langOkB e = true)
    (h2 : langOkB c = true) : (addons_repository e c).isSome = true := by
  unfold addons_repository
  obtain ⟨pb, hpb⟩ :=
    Option.isSome_iff_exists.mp (publisher_block_isSome e c h1 h2)
  rw [hpb]
  exact rfl

theorem addons_fallback_isSome (style : Ieee) (e c : Entry)
    (chapter sect : Option Nat) (h1 : langOkB e = true)
    (h2 : langOkB c = true) :
    (addons_fallback style e c chapter sect).isSome = true := by
  unfold addons_fallback
  obtain ⟨pb, hpb⟩ :=
    Option.isSome_iff_exists.mp (publisher_block_isSome e c h1 h2)
  rw [hpb]
  exact rfl

theorem get_addons_isSome (style : Ieee) (e c : Entry)
    (chapter sect : Option Nat)
    (h1 : langOkB e = true) (h2 : langOkB c = true) :
    (style.get_addons e c chapter sect).isSome = true := by
  rw [Ieee.get_addons.eq_def]
  by_cases h3 : c.entry_type = EntryType.Conference ∨
    c.entry_type = EntryType.Proceedings
  · rw [if_pos h3]; exact rfl
  rw [if_neg h3]
  by_cases h4 : c.entry_type = EntryType.Reference
  · rw [if_pos h4]; exact rfl
  rw [if_neg h4]
  by_cases h5 : c.entry_type = EntryType.Repository
  · rw [if_pos h5]; exact addons_repository_isSome e c h1 h2
  rw [if_neg h5]
  by_cases h6 : c.entry_type = EntryType.Video
  · rw [if_pos h6]; exact rfl
  rw [if_neg h6]
  by_cases h7 : c.entry_type = EntryType.Patent
  · rw [if_pos h7]; exact rfl
  rw [if_neg h7]
  by_cases h8 : c.entry_type = EntryType.Periodical
  · rw [if_pos h8]; exact rfl
  rw [if_neg h8]
  by_cases h9 : c.entry_type = EntryType.Report
  · rw [if_pos h9]; exact rfl
  rw [if_neg h9]
  by_cases h10 : c.entry_type = EntryType.Thesis
  · rw [if_pos h10]; exact rfl
  rw [if_neg h10]
  by_cases h11 : c.entry_type = EntryType.Legislation
  · rw [if_pos h11]; exact rfl
  rw [if_neg h11]
  by_cases h12 : c.entry_type = EntryType.Manuscript
  · rw [if_pos h12]; exact rfl
  rw [if_neg h12]
  cases hsp : select_preprint e with
  | some parent => exact rfl
  | none =>
    have htail :
        (if e.entry_type = EntryType.Web ∨ e.entry_type = EntryType.Blog then
          some (addons_web e)
        else
          match select_web_parented e with
          | some parent => some (addons_web_parented e parent)
          | none =>
            addons_fallback style e c chapter sect).isSome = true := by
      by_cases h13 : e.entry_type = EntryType.Web ∨
        e.entry_type = EntryType.Blog
      · rw [if_pos h13]; exact rfl
      rw [if_neg h13]
      cases hwp : select_web_parented e with
      | some parent => exact rfl
      | none => exact addons_fallback_isSome style e c chapter sect h1 h2
    exact htail

theorem str_data_append (a b : String) : (a ++ b).data = a.data ++ b.data := by
  cases a; cases b; rfl

theorem str_empty_data : ("" : String).data = [] := rfl

theorem str_ext {a b : String} (h : a.data = b.data) : a = b := by
  cases a; cases b; exact congrArg String.mk h

theorem str_empty_append (s : String) : "" ++ s = s := by
  apply str_ext; simp [str_data_append, str_empty_data]

theorem str_append_empty (s : String) : s ++ "" = s := by
  apply str_ext; simp [str_data_append, str_empty_data]

theorem str_append_assoc (a b c : String) : a ++ b ++ c = a ++ (b ++ c) := by
  apply str_ext; simp [str_data_append]

/-- C5: with the default threshold of six, and_list renders the three-name
list A, B, C as "A, B, and C", renders every six-name list as the first two
names followed by "et al.", and renders every one-name list as that name. -/
theorem C5_theorem :
    Ieee.new.and_list ["A", "B", "C"] = "A, B, and C" ∧
    (∀ a b c d e f : String,
      Ieee.new.and_list [a, b, c, d, e, f] =
        a ++ ", " ++ b ++ ", " ++ "et al.") ∧
    (∀ a : String, Ieee.new.and_list [a] = a) := by
  refine ⟨rfl, fun a b c d e f => ?_, fun a => ?_⟩
  · show (((("" ++ a) ++ ", ") ++ b) ++ ", ") ++ "et al." =
      a ++ ", " ++ b ++ ", " ++ "et al."
    rw [str_empty_append]
  · show "" ++ a = a
    rw [str_empty_append]

/-- C6: for every two-name list below the truncation threshold (or with
truncation disabled), and_list inserts a comma before "and", giving
"A, and B". -/
theorem C6_theorem (style : Ieee) (a b : String)
    (h : style.et_al_threshold.getD 0 = 0 ∨ 2 < style.et_al_threshold.getD 0) :
    style.and_list [a, b] = a ++ ", " ++ "and " ++ b := by
  have hout : ¬ (style.et_al_threshold.getD 0 > 0 ∧
      2 ≥ style.et_al_threshold.getD 0) := by omega
  have hin : ¬ (style.et_al_threshold.getD 0 > 0 ∧ 0 > 1 ∧
      2 ≥ style.et_al_threshold.getD 0) := by omega
  have hin1 : ¬ (style.et_al_threshold.getD 0 > 0 ∧ 1 > 1 ∧
      2 ≥ style.et_al_threshold.getD 0) := by omega
  simp only [Ieee.and_list, and_list_loop, List.length_cons, List.length_nil]
  rw [if_neg hin, if_neg hin1, if_neg hout]
  norm_num

/-- C6 witness at the default style and the names A and B. -/
theorem C6_witness :
    (Ieee.new.et_al_threshold.getD 0 = 0 ∨
      2 < Ieee.new.et_al_threshold.getD 0) ∧
    Ieee.new.and_list ["A", "B"] = "A, and B" :=
  ⟨by decide, C6_theorem Ieee.new "A" "B" (by decide)⟩

/-- C8: date rendering adds one to the stored zero-based day index: with
month index 0, stored day index 0 renders as "Jan. 1," and stored day index
30 renders as "Jan. 31," before the year. -/
theorem C8_theorem :
    (∀ y : Int,
      formt_date { year := y, month := some 0, day := some 0 } =
        "Jan. 1, " ++ display_year_int y) ∧
    (∀ y : Int,
      formt_date { year := y, month := some 0, day := some 30 } =
        "Jan. 31, " ++ display_year_int y) :=
  ⟨fun _ => rfl, fun _ => rfl⟩

/-- C9: the formatted citation does not depend on the optional preceding
record: format gives the same result for any two values of that argument. -/
theorem C9_theorem (style : Ieee) (e : Entry) (p1 p2 : Option Entry) :
    style.format e p1 = style.format e p2 := rfl

/-- C7: canonical-parent resolution tries its four selectors in order, so a
Chapter, Scene or Web record with at least one parent resolves to its first
parent, whatever sits deeper in the chain. -/
theorem C7_theorem (e p : Entry) (rest : List Entry)
    (hk : e.entry_type = EntryType.Chapter ∨ e.entry_type = EntryType.Scene ∨
      e.entry_type = EntryType.Web)
    (hp : e.parents = p :: rest) :
    get_canonical_parent e = some p := by
  have h1 : select_section e = some p := by
    unfold select_section
    rw [if_pos hk, hp]
    rfl
  simp [get_canonical_parent, h1, Option.orElse]

/-- C7 witness: a Chapter whose direct parent is a Book and whose deeper
ancestor is a Conference resolves to the Book. -/
theorem C7_witness :
    (chapterOverConf.entry_type = EntryType.Chapter ∨
      chapterOverConf.entry_type = EntryType.Scene ∨
      chapterOverConf.entry_type = EntryType.Web) ∧
    chapterOverConf.parents = bookUnderConf :: [] ∧
    bookUnderConf.parents = [conferenceE] ∧
    conferenceE.entry_type = EntryType.Conference ∧
    get_canonical_parent chapterOverConf = some bookUnderConf :=
  ⟨by decide, rfl, rfl, rfl,
    C7_theorem chapterOverConf bookUnderConf [] (by decide) rfl⟩

/-- C1 as stated is false: with a non-empty addon list the quoted comma is
kept (a space and the addons follow), and with an empty addon list the
comma is dropped, the reverse of the claim in both cases. -/
theorem C1_counterexample :
    stitch_addons "“T,”" ["X"] = "“T,” X" ∧
    stitch_addons "“T,”" ["X"] ≠ "“T” X" ∧
    stitch_addons "“T,”" [] = "“T”" ∧
    stitch_addons "“T,”" [] ≠ "“T,”" := by
  refine ⟨by decide, by decide, by decide, by decide⟩

/-- C1 amended: in the final stitching step, for a string ending in the
quoted-comma sequence, a non-empty addon list keeps the comma-quote ending
and continues with a space and the addons, while an empty addon list drops
the trailing comma, leaving the closing quote. -/
theorem C1_theorem (s : String) (addons : List String)
    (h : ends_with_comma_quote s = true) :
    stitch_addons s addons =
      if addons.isEmpty then drop_comma_quote s
      else s ++ " " ++ join_addons addons := by
  cases addons with
  | nil => simp [stitch_addons, h, join_addons, str_append_empty]
  | cons x rest => simp [stitch_addons, h]

/-- C1 witness at a concrete quoted-comma string and one addon. -/
theorem C1_witness :
    ends_with_comma_quote "“T,”" = true ∧
    stitch_addons "“T,”" ["X"] =
      (if (["X"] : List String).isEmpty then drop_comma_quote "“T,”"
        else "“T,”" ++ " " ++ join_addons ["X"]) :=
  ⟨by decide, C1_theorem "“T,”" ["X"] (by decide)⟩

/-- C3 as stated is false: a Video without its own issue and volume fields,
nested beneath a Video that carries both, with one director and one writer,
is treated as a film ("D, Director"), not as a TV episode with
role-suffixed names. -/
theorem C3_counterexample :
    Ieee.new.get_author filmShapedEpisode filmShapedEpisode = "D, Director" ∧
    Ieee.new.get_author filmShapedEpisode filmShapedEpisode ≠
      "D (Director), and W (Writer)" := by
  refine ⟨by decide, by decide⟩

/-- C3 amended: the TV-episode case fires when the record itself has kind
Video and carries issue and volume fields and some parent has kind Video;
then, provided the director list is non-empty, get_author returns the
and-list of the directors suffixed " (Director)" followed by the writers
suffixed " (Writer)". -/
theorem C3_theorem (style : Ieee) (e canonical : Entry)
    (h1 : e.entry_type = EntryType.Video)
    (h2 : e.issue.isSome = true) (h3 : e.volume.isSome = true)
    (h4 : e.parents.any
      (fun p => decide (p.entry_type = EntryType.Video)) = true)
    (h5 : e.affiliated_filtered PersonRole.Director ≠ []) :
    style.get_author e canonical =
      style.and_list
        ((e.affiliated_filtered PersonRole.Director).map
            (fun s => s ++ " (Director)") ++
          (e.affiliated_filtered PersonRole.Writer).map
            (fun s => s ++ " (Writer)")) := by
  have htv : tv_series_matches e = true := by
    simp [tv_series_matches, h1, h2, h3, h4]
  simp [Ieee.get_author, author_names_role, h1, htv, h5, name_list_straight,
    Option.orElse]

/-- C3 witness: the episode-shaped Video with one director and one writer. -/
theorem C3_witness :
    episodeE.entry_type = EntryType.Video ∧
    episodeE.issue.isSome = true ∧
    episodeE.volume.isSome = true ∧
    episodeE.parents.any
      (fun p => decide (p.entry_type = EntryType.Video)) = true ∧
    episodeE.affiliated_filtered PersonRole.Director ≠ [] ∧
    Ieee.new.get_author episodeE episodeE =
      Ieee.new.and_list
        ((episodeE.affiliated_filtered PersonRole.Director).map
            (fun s => s ++ " (Director)") ++
          (episodeE.affiliated_filtered PersonRole.Writer).map
            (fun s => s ++ " (Writer)")) :=
  ⟨by decide, by decide, by decide, by decide, by decide,
    C3_theorem Ieee.new episodeE episodeE (by decide) (by decide) (by decide)
      (by decide) (by decide)⟩

/-- C4 as stated is false: with the page range absent, the serial-number
fragment "Art. no. 7" is pushed after the date fragments, not in the page
range's position before them. -/
theorem C4_counterexample :
    Ieee.new.get_addons periodicalE periodicalE none none =
      some ["Mar.", "2020", "Art. no. 7", "doi: x"] ∧
    Ieee.new.get_addons periodicalE periodicalE none none ≠
      some ["Art. no. 7", "Mar.", "2020", "doi: x"] := by
  refine ⟨by decide, by decide⟩

/-- C4 amended: for a Periodical canonical record, the fragments appear as
volume, "no. issue", page range, month(+day) and year, then — only when the
page range is absent — "Art. no. serial" after the date fragments, then
"doi: doi". -/
theorem C4_theorem (style : Ieee) (e c : Entry) (ch sect : Option Nat)
    (sn : String) (d : Date) (m : Fin 12)
    (hc : c.entry_type = EntryType.Periodical)
    (hp : e.page_range = none)
    (hs : e.serial_number = some sn)
    (hd : e.any_date = some d)
    (hm : d.month = some m) :
    style.get_addons e c ch sect =
      some ((match c.volume with
          | some v => [format_range "vol." "vols." v]
          | none => []) ++
        (match c.issue with
          | some i => ["no. " ++ i.show]
          | none => []) ++
        ([match d.day with
          | some day => get_month_abbr m ++ " " ++ toString (day + 1)
          | none => get_month_abbr m] ++ [d.display_year]) ++
        ["Art. no. " ++ sn] ++
        (match e.doi with
          | some doi => ["doi: " ++ doi]
          | none => [])) := by
  simp [Ieee.get_addons, addons_periodical, hc, hp, hs, hd, hm,
    month_day_frags]

/-- C4 witness at the concrete Periodical record. -/
theorem C4_witness :
    periodicalE.entry_type = EntryType.Periodical ∧
    periodicalE.page_range = none ∧
    periodicalE.serial_number = some "7" ∧
    periodicalE.any_date = some { year := 2020, month := some 2, day := none } ∧
    Ieee.new.get_addons periodicalE periodicalE none none =
      some ["Mar.", "2020", "Art. no. 7", "doi: x"] :=
  ⟨by decide, by decide, by decide, by decide, by
    have h := C4_theorem Ieee.new periodicalE periodicalE none none "7"
      { year := 2020, month := some 2, day := none } 2
      (by decide) (by decide) (by decide) (by decide) (by decide)
    simpa using h⟩

/-- C10: for an untitled, parentless Chapter whose serial number parses as
the integer N, the walk pushes the serial number twice (once in the loop,
once after it), chapter and section both become N, and the fallback addons
list contains both "ch. N" and "sec. N" (the record's language, when
present, must resolve for the addons list to exist at all). -/
theorem C10_theorem (style : Ieee) (e : Entry) (s : String) (n : Nat)
    (hk : e.entry_type = EntryType.Chapter) (ht : e.title = none)
    (hp : e.parents = []) (hs : e.serial_number = some s)
    (hn : parse_u32 s = some n) (hl : langOkB e = true) :
    sn_stack_of e = [s, s] ∧
    chapter_of e = some n ∧
    section_of e = some n ∧
    ∃ l, style.get_addons e e (some n) (some n) = some l ∧
      ("ch. " ++ toString n) ∈ l ∧ ("sec. " ++ toString n) ∈ l := by
  cases e with
  | mk d ps =>
    subst hp
    have hkd : d.entry_type = EntryType.Chapter := hk
    have htd : d.title = none := ht
    have hsd : d.serial_number = some s := hs
    have hwalk : sn_walk (Entry.mk d []) = (Entry.mk d [], [s]) := by
      unfold sn_walk
      rw [if_pos]
      · rw [hsd]
      · exact ⟨by rw [htd]; rfl, Or.inl hkd⟩
    have hstack : sn_stack_of (Entry.mk d []) = [s, s] := by
      unfold sn_stack_of
      rw [hwalk]
      simp [Entry.entry_type, Entry.serial_number, Entry.data, hkd, hsd]
    have hsecs : secs_of (Entry.mk d []) = [n, n] := by
      unfold secs_of
      rw [hstack]
      simp [List.filterMap, hn]
    refine ⟨hstack, ?_, ?_, ?_⟩
    · unfold chapter_of
      rw [hsecs]
      rfl
    · unfold section_of
      rw [hsecs]
      rfl
    · have hpb : (publisher_block (Entry.mk d []) (Entry.mk d [])).isSome := by
        unfold publisher_block
        cases hpub : (Entry.mk d []).publisher.orElse
            (fun _ => (Entry.mk d []).organization) with
        | none => simp
        | some publisher =>
          have hll : (in_lang_suffix (Entry.mk d []) (Entry.mk d [])).isSome := by
            unfold in_lang_suffix
            unfold langOkB at hl
            cases hlang : (Entry.mk d []).language with
            | none => simp [hlang, Option.orElse]
            | some l =>
              rw [hlang] at hl
              simp [hlang, Option.orElse, Option.isSome_map]
              exact hl
          obtain ⟨ls, hls⟩ := Option.isSome_iff_exists.mp hll
          simp [hls]
      obtain ⟨pubs, hpubs⟩ := Option.isSome_iff_exists.mp hpb
      unfold Ieee.get_addons
      simp [Entry.entry_type, Entry.data, Entry.parents, hkd,
        select_preprint, select_web_parented, addons_fallback, hpubs]

/-- C10 witness: the untitled parentless Chapter with serial number "3". -/
theorem C10_witness :
    numberedChapter.entry_type = EntryType.Chapter ∧
    numberedChapter.title = none ∧
    numberedChapter.parents = [] ∧
    numberedChapter.serial_number = some "3" ∧
    parse_u32 "3" = some 3 ∧
    langOkB numberedChapter = true ∧
    (sn_stack_of numberedChapter = ["3", "3"] ∧
      chapter_of numberedChapter = some 3 ∧
      section_of numberedChapter = some 3 ∧
      ∃ l, Ieee.new.get_addons numberedChapter numberedChapter
          (some 3) (some 3) = some l ∧
        ("ch. " ++ toString 3) ∈ l ∧ ("sec. " ++ toString 3) ∈ l) :=
  ⟨by decide, by decide, rfl, by decide, by decide, by decide,
    C10_theorem Ieee.new numberedChapter "3" 3 (by decide) (by decide) rfl
      (by decide) (by decide) (by decide)⟩

/-- C2 as stated is false: a record whose language field holds the code
"zz", which is not a valid ISO 639-1 code, makes format abort (the source
unwraps the failed language lookup and panics, embedded here as none). -/
theorem C2_counterexample :
    invalidLangChapter.language = some "zz" ∧
    language_from_639_1 "zz" = none ∧
    Ieee.new.format invalidLangChapter none = none :=
  ⟨rfl, rfl, rfl⟩

/-- C2 amended: formatting never aborts except at language-name resolution;
whenever the language fields consulted — those of the record reached by the
chapter/scene walk and of its canonical record — are absent or hold valid
codes, format returns a value, every other missing field only omitting its
fragment. -/
theorem C2_theorem (style : Ieee) (e0 : Entry) (prev : Option Entry)
    (h1 : langOkB (walked e0) = true)
    (h2 : langOkB (canonical_of (walked e0)) = true) :
    (style.format e0 prev).isSome = true := by
  unfold Ieee.format
  obtain ⟨t, ht⟩ := Option.isSome_iff_exists.mp
    (get_title_element_isSome style (walked e0) (canonical_of (walked e0))
      h1 h2)
  obtain ⟨a, ha⟩ := Option.isSome_iff_exists.mp
    (get_addons_isSome style (walked e0) (canonical_of (walked e0))
      (chapter_of e0) (section_of e0) h1 h2)
  simp [ht, ha]

/-- C2 witness: the Chapter with the valid language code "en" formats to a
value. -/
theorem C2_witness :
    langOkB (walked validLangChapter) = true ∧
    langOkB (canonical_of (walked validLangChapter)) = true ∧
    (Ieee.new.format validLangChapter none).isSome = true :=
  ⟨by decide, by decide,
    C2_theorem Ieee.new validLangChapter none (by decide) (by decide)⟩

end Hayagriva
